import Mathlib

/-!
Shallow embedding of the bqt repository (src/bqt.py), a Blender/Qt
interoperability shim.  Pure fragments of the Python module become Lean
functions; the stateful fragments (the Qt application object, the QSettings
store, the bpy registration state, the process-global QApplication singleton)
become explicit state passing.  Machine floats are modelled exactly as
fractions of integers, fallible Python code returns Except values.
-/

set_option maxRecDepth 8000

namespace Bqt

/-- Python exception kinds raised by the code paths modelled here. -/
inductive PyError where
  | valueError
  | zeroDivisionError
  | notImplementedError
  | runtimeError
  | attributeError
deriving DecidableEq, Repr

/-- ASCII lowering of a character list, models str.lower on the strings used here. -/
def lowerChars (cs : List Char) : List Char := cs.map Char.toLower

/-- Boolean list-level test that the first list is an initial segment of the second. -/
def startsWithChars : List Char → List Char → Bool
  | [], _ => true
  | _ :: _, [] => false
  | a :: as, b :: bs => a == b && startsWithChars as bs

/-- Boolean contiguous-sublist test, models the Python membership test on strings. -/
def containsSub (needle : List Char) : List Char → Bool
  | [] => needle.isEmpty
  | c :: t => startsWithChars needle (c :: t) || containsSub needle t

/-- Models the Python expression needle in hay for two strings. -/
def strContains (needle hay : String) : Bool := containsSub needle.toList hay.toList

/-- Models str.lower(). -/
def strLower (s : String) : String := String.mk (lowerChars s.toList)

/-- Python truthiness of an os.getenv result: None and the empty string are
falsy, every other string is truthy. -/
def envTruthy : Option String → Bool
  | none => false
  | some s => !s.isEmpty

/-- Exact value of a finite Python float, kept as an unreduced fraction so that
all operations stay kernel-computable; den is a power of ten, hence positive. -/
structure PyFloat where
  num : Int
  den : Nat
deriving DecidableEq, Repr

/-- The mathematical rational value of a modelled float. -/
def PyFloat.val (f : PyFloat) : Rat := (f.num : Rat) / (f.den : Rat)

/-- Value of a decimal digit list, most significant first. -/
def digitsToNat (ds : List Char) : Nat :=
  ds.foldl (fun acc c => acc * 10 + (c.toNat - 48)) 0

/-- Consumes an optional leading sign, returning the sign and the rest. -/
def takeSign : List Char → Int × List Char
  | '+' :: rest => (1, rest)
  | '-' :: rest => (-1, rest)
  | cs => (1, cs)

/-- Strips leading and trailing whitespace, as the Python float conversion does. -/
def trimChars (cs : List Char) : List Char :=
  ((cs.dropWhile Char.isWhitespace).reverse.dropWhile Char.isWhitespace).reverse

/-- Models the Python float(s) conversion on finite decimal literals: optional
surrounding whitespace, optional sign, digits with an optional fractional part
and an optional decimal exponent.  Returns none (a ValueError in Python) on any
other input.  The special spellings inf and nan, and digit-group underscores,
are outside this model; they denote no finite positive rate. -/
def pyFloatOfString (s : String) : Option PyFloat :=
  let cs := trimChars s.toList
  let (sgn, cs) := takeSign cs
  let ipart := cs.takeWhile Char.isDigit
  let cs := cs.dropWhile Char.isDigit
  let (fpart, cs) :=
    match cs with
    | '.' :: rest => (rest.takeWhile Char.isDigit, rest.dropWhile Char.isDigit)
    | other => ([], other)
  if ipart.isEmpty && fpart.isEmpty then none
  else
    let mnum : Int := sgn * (digitsToNat (ipart ++ fpart) : Int)
    let mden : Nat := 10 ^ fpart.length
    match cs with
    | [] => some ⟨mnum, mden⟩
    | c :: rest =>
      if c == 'e' || c == 'E' then
        let (esgn, rest) := takeSign rest
        let edigits := rest.takeWhile Char.isDigit
        let rest := rest.dropWhile Char.isDigit
        if edigits.isEmpty || !rest.isEmpty then none
        else if 0 ≤ esgn then some ⟨mnum * ((10 ^ digitsToNat edigits : Nat) : Int), mden⟩
        else some ⟨mnum, mden * 10 ^ digitsToNat edigits⟩
      else none

/-- Exact value of the Python expression 1.0 / x on a nonzero modelled float. -/
def pyRecip (q : PyFloat) : PyFloat :=
  if 0 ≤ q.num then ⟨(q.den : Int), q.num.toNat⟩ else ⟨-(q.den : Int), (-q.num).toNat⟩

/-- Models the module-level constant TICK = 1.0 / float(os.getenv(BQT_TICK_RATE, 30)),
evaluated once at import against the environment.  A non-numeric value makes the
float conversion raise ValueError; a zero value makes the division raise
ZeroDivisionError. -/
def TICK (env : Option String) : Except PyError PyFloat :=
  match pyFloatOfString (env.getD "30") with
  | none => .error .valueError
  | some q => if q.num = 0 then .error .zeroDivisionError else .ok (pyRecip q)

/-- A QRect rectangle (x, y, width, height). -/
structure Rect where
  x : Int
  y : Int
  w : Int
  h : Int
deriving DecidableEq, Repr

/-- The default rectangle QRect(0, 0, 640, 480) from _set_window_geometry. -/
def defaultRect : Rect := ⟨0, 0, 640, 480⟩

/-- The MainWindow group of the QSettings store.  A field is none when the key
was never written.  The two booleans are modelled in the serialized string form
in which a later session reads them back (the code compares them with the
lower-cased literal true). -/
structure Settings where
  geometry : Option Rect
  isMaximized : Option String
  isFullScreen : Option String
deriving DecidableEq, Repr

/-- Serialized form of a stored boolean setting. -/
def boolToSettingString (b : Bool) : String := if b then "true" else "false"

/-- Models settings.value(key, false-literal).lower() == true-literal. -/
def settingIsTrue (v : Option String) : Bool := strLower (v.getD "false") == "true"

/-- Observable state of the container widget (blender_widget). -/
structure WidgetState where
  geometry : Rect
  isMaximized : Bool
  isFullScreen : Bool
deriving DecidableEq, Repr

/-- The window-showing call issued by _set_window_geometry: showFullScreen(),
showMaximized(), or setGeometry(r) followed by show(). -/
inductive WindowAction where
  | showFullScreen
  | showMaximized
  | showWithGeometry (r : Rect)
deriving DecidableEq, Repr

/-- Models BlenderApplication._set_window_geometry: reads the persisted settings
and decides how the widget is shown, in the source order full-screen, then
maximized, then plain geometry with the default rectangle. -/
def set_window_geometry (s : Settings) : WindowAction :=
  if settingIsTrue s.isFullScreen then .showFullScreen
  else if settingIsTrue s.isMaximized then .showMaximized
  else .showWithGeometry (s.geometry.getD defaultRect)

/-- Models BlenderApplication._store_window_geometry: writes the three keys of
the MainWindow group from the current widget state. -/
def store_window_geometry (w : WidgetState) (_s : Settings) : Settings :=
  { geometry := some w.geometry,
    isMaximized := some (boolToSettingString w.isMaximized),
    isFullScreen := some (boolToSettingString w.isFullScreen) }

/-- Effect of a WindowAction on the widget state. -/
def applyShow (w : WidgetState) : WindowAction → WidgetState
  | .showFullScreen => { w with isFullScreen := true }
  | .showMaximized => { w with isMaximized := true, isFullScreen := false }
  | .showWithGeometry r => { geometry := r, isMaximized := false, isFullScreen := false }

/-- Possible receivers of a dispatched event: the wrapped QWindow, its
container widget, or any other object. -/
inductive Receiver where
  | blenderWidget
  | blenderWindow
  | other (n : Nat)
deriving DecidableEq, Repr

/-- A dispatched QEvent: whether it is a QCloseEvent, and its accept flag
(event.ignore() clears the flag). -/
structure Event where
  isClose : Bool
  accepted : Bool
deriving DecidableEq, Repr

/-- State of the BlenderApplication object together with the settings store it
writes through. -/
structure BlenderApp where
  should_close : Bool
  widget : WidgetState
  settings : Settings
deriving DecidableEq, Repr

/-- How notify returned: intercepted means it returned False itself; delegated
means it returned the result of the superclass dispatch. -/
inductive NotifyOutcome where
  | intercepted
  | delegated
deriving DecidableEq, Repr

/-- Result of one notify call. -/
structure NotifyResult where
  app : BlenderApp
  event : Event
  outcome : NotifyOutcome
deriving DecidableEq, Repr

/-- Models BlenderApplication.notify: a QCloseEvent whose receiver is the
container widget or the wrapped window is ignored, the geometry is persisted,
the should_close flag is set, and False is returned; every other pair is
delegated to the superclass unchanged. -/
def notify (app : BlenderApp) (receiver : Receiver) (ev : Event) : NotifyResult :=
  if ev.isClose ∧ (receiver = .blenderWidget ∨ receiver = .blenderWindow) then
    { app := { app with
        settings := store_window_geometry app.widget app.settings,
        should_close := true },
      event := { ev with accepted := false },
      outcome := .intercepted }
  else
    { app := app, event := ev, outcome := .delegated }

/-- Models the state-relevant part of BlenderApplication.__init__: the
should_close flag starts False, and on every platform but macOS the persisted
geometry is restored and applied to the widget. -/
def BlenderApp.construct (isMac : Bool) (w : WidgetState) (s : Settings) : BlenderApp :=
  let app : BlenderApp := ⟨false, w, s⟩
  if isMac then app
  else { app with widget := applyShow app.widget (set_window_geometry s) }

/-- The operations that can touch a BlenderApp after construction: an event
dispatch, a focus change (state-free refocus call), a geometry restore, a
geometry store, and one timer tick (on_update only reads the flag). -/
inductive AppOp where
  | notifyOp (r : Receiver) (ev : Event)
  | focusChangedOp (focusOnWidget : Bool)
  | setWindowGeometryOp
  | storeWindowGeometryOp
  | tickOp
deriving DecidableEq, Repr

/-- One step of the application state under an operation. -/
def applyOp (app : BlenderApp) : AppOp → BlenderApp
  | .notifyOp r ev => (notify app r ev).app
  | .focusChangedOp _ => app
  | .setWindowGeometryOp =>
      { app with widget := applyShow app.widget (set_window_geometry app.settings) }
  | .storeWindowGeometryOp =>
      { app with settings := store_window_geometry app.widget app.settings }
  | .tickOp => app

/-- Runs a sequence of operations. -/
def runOps (app : BlenderApp) (ops : List AppOp) : BlenderApp :=
  ops.foldl applyOp app

/-- Models on_update: issues the quit command exactly when the flag is set, and
always returns the module-level TICK period unchanged. -/
def on_update (tick : PyFloat) (app : BlenderApp) : Bool × PyFloat :=
  (app.should_close, tick)

/-- The bl_idname under which the QOperator command class is registered. -/
def qoperator_idname : String := "qoperator.global_app"

/-- The name of the load_post handler appended by register. -/
def load_post_handler : String := "create_global_app"

/-- The bpy registration state touched by register and unregister: the
registered command classes and the load_post handler list. -/
structure BpyState where
  classes : List String
  load_post : List String
deriving DecidableEq, Repr

/-- Models bpy.utils.register_class(QOperator).  The Blender API raises
ValueError when the class is already registered; the call carries no
membership guard in the source. -/
def register_class (s : BpyState) : Except PyError BpyState :=
  if qoperator_idname ∈ s.classes then .error .valueError
  else .ok { s with classes := s.classes ++ [qoperator_idname] }

/-- Models bpy.utils.unregister_class(QOperator).  The Blender API raises
RuntimeError when the class is not registered; the call carries no membership
guard in the source. -/
def unregister_class (s : BpyState) : Except PyError BpyState :=
  if qoperator_idname ∈ s.classes then
    .ok { s with classes := s.classes.erase qoperator_idname }
  else .error .runtimeError

/-- Models the module-level register(): an unconditional class registration,
then a membership-guarded append of the load_post handler. -/
def register (s : BpyState) : Except PyError BpyState :=
  match register_class s with
  | .error e => .error e
  | .ok s1 =>
    if load_post_handler ∈ s1.load_post then .ok s1
    else .ok { s1 with load_post := s1.load_post ++ [load_post_handler] }

/-- Models the module-level unregister(): an unconditional class
unregistration, then a membership-guarded removal of the load_post handler. -/
def unregister (s : BpyState) : Except PyError BpyState :=
  match unregister_class s with
  | .error e => .error e
  | .ok s1 =>
    if load_post_handler ∈ s1.load_post then
      .ok { s1 with load_post := s1.load_post.erase load_post_handler }
    else .ok s1

/-- Process-global state seen by instantiate_application: the QApplication
singleton (its identity, if one exists), the registered bpy timers, and how
many BlenderApplication constructions have happened. -/
structure GlobalState where
  qapp : Option Nat
  timers : List String
  constructions : Nat
deriving DecidableEq, Repr

/-- Models instantiate_application(): when QApplication.instance() is truthy it
is returned as is; otherwise a BlenderApplication is constructed and the
on_update timer registered, once. -/
def instantiate_application (g : GlobalState) : GlobalState × Nat :=
  match g.qapp with
  | some a => (g, a)
  | none =>
      let a := g.constructions + 1
      ({ qapp := some a, timers := g.timers ++ ["on_update"],
         constructions := g.constructions + 1 }, a)

/-- Models QOperator.execute: stores the instantiated application and returns
the PASS_THROUGH status. -/
def qoperator_execute (g : GlobalState) : GlobalState × Nat × String :=
  let (g2, a) := instantiate_application g
  (g2, a, "PASS_THROUGH")

/-- A QIcon object: the bytes of the file it was loaded from, or none for a
null icon (for example when the file does not exist).  The object itself is
always truthy in Python, null or not, since QIcon defines no boolean
conversion. -/
structure QIconV where
  data : Option (List Nat)
deriving DecidableEq, Repr

/-- One process visible to the Windows process enumeration; accessible is false
when opening it raises the suppressed pywintypes error. -/
structure WinProcess where
  pid : Nat
  exe : String
  accessible : Bool
deriving DecidableEq, Repr

/-- Models BlenderApplication._get_application_icon_linux, whose body is a bare
raise NotImplementedError. -/
def get_application_icon_linux : Except PyError QIconV :=
  .error .notImplementedError

/-- The process-enumeration loop of _get_application_icon_windows: every
accessible process whose executable path contains blender (case-insensitive)
has its embedded icon extracted and saved over the temp file; non-matching
processes leave the temp file as it was. -/
def winIconScan (iconOf : String → List Nat) (procs : List WinProcess)
    (tempFile : Option (List Nat)) : Option (List Nat) :=
  procs.foldl
    (fun tf p =>
      if p.accessible ∧ strContains "blender" (strLower p.exe) then some (iconOf p.exe)
      else tf)
    tempFile

/-- Models BlenderApplication._get_application_icon_windows: runs the
enumeration loop, then unconditionally returns a QIcon loaded from the temp
file path (a null icon when the file is absent). -/
def get_application_icon_windows (iconOf : String → List Nat)
    (procs : List WinProcess) (tempFile : Option (List Nat)) :
    Option (List Nat) × QIconV :=
  let tf := winIconScan iconOf procs tempFile
  (tf, ⟨tf⟩)

/-- The operating systems distinguished by the module. -/
inductive Platform where
  | windows
  | mac
  | linux
  | otherOS
deriving DecidableEq, Repr

/-- Models the icon phase of BlenderApplication.__init__ (the platform dispatch
and the conditional setWindowIcon): returns the icon passed to setWindowIcon
(none when setWindowIcon is not called) and the final temp file contents.  On
Linux the call into the unimplemented routine propagates its error, there being
no handler in the constructor or its callers; on an unknown platform the
constructor itself raises NotImplementedError.  (On Linux the constructor would
in fact already have failed earlier, at the use of the never-assigned window
handle attribute, which only strengthens the point that no icon phase error is
caught.) -/
def init_icon_step (p : Platform) (iconOf : String → List Nat)
    (procs : List WinProcess) (tempFile : Option (List Nat)) (macIcon : QIconV) :
    Except PyError (Option QIconV × Option (List Nat)) :=
  match p with
  | .mac => .ok (some macIcon, tempFile)
  | .linux =>
      match get_application_icon_linux with
      | .error e => .error e
      | .ok _ => .ok (none, tempFile)
  | .windows =>
      let (tf, icon) := get_application_icon_windows iconOf procs tempFile
      .ok (some icon, tf)
  | .otherOS => .error .notImplementedError

/-- Models the create_global_app load_post handler body: the operator is
invoked exactly when the module file path contains the substring startup and
the BQT_DISABLE_STARTUP environment variable is not truthy.  Returns whether
the operator is invoked. -/
def create_global_app (file : String) (disableEnv : Option String) : Bool :=
  strContains "startup" file && !(envTruthy disableEnv)

/-! Helper lemmas shared by the claim theorems. -/

theorem pyRecip_val (q : PyFloat) (h : 0 < q.num) : (pyRecip q).val = 1 / q.val := by
  have hnum : ((q.num.toNat : Nat) : Rat) = (q.num : Rat) := by
    rw [← Int.cast_natCast, Int.toNat_of_nonneg h.le]
  unfold pyRecip PyFloat.val
  rw [if_pos h.le]
  show (((q.den : Nat) : Int) : Rat) / ((q.num.toNat : Nat) : Rat)
      = 1 / ((q.num : Rat) / ((q.den : Nat) : Rat))
  rw [one_div_div, hnum, Int.cast_natCast]

theorem winIconScan_no_match (iconOf : String → List Nat) :
    ∀ (procs : List WinProcess) (tempFile : Option (List Nat)),
      (∀ p ∈ procs, strContains "blender" (strLower p.exe) = false) →
      winIconScan iconOf procs tempFile = tempFile := by
  intro procs
  induction procs with
  | nil => intro tf h; rfl
  | cons p t ih =>
      intro tf h
      have hp := h p (List.mem_cons_self p t)
      have hcond : ¬(p.accessible = true ∧ strContains "blender" (strLower p.exe) = true) := by
        intro hc
        rw [hp] at hc
        exact Bool.false_ne_true hc.2
      have hstep : winIconScan iconOf (p :: t) tf = winIconScan iconOf t tf := by
        unfold winIconScan
        simp only [List.foldl_cons, if_neg hcond]
      rw [hstep]
      exact ih tf (fun q hq => h q (List.mem_cons_of_mem p hq))

theorem register_eq (s : BpyState) :
    register s =
      (if qoperator_idname ∈ s.classes then Except.error PyError.valueError
       else if load_post_handler ∈ s.load_post then
         Except.ok ⟨s.classes ++ [qoperator_idname], s.load_post⟩
       else Except.ok ⟨s.classes ++ [qoperator_idname], s.load_post ++ [load_post_handler]⟩) := by
  unfold register register_class
  by_cases hm : qoperator_idname ∈ s.classes
  · rw [if_pos hm, if_pos hm]
  · rw [if_neg hm, if_neg hm]

theorem unregister_eq (s : BpyState) :
    unregister s =
      (if qoperator_idname ∈ s.classes then
        (if load_post_handler ∈ s.load_post then
          Except.ok ⟨s.classes.erase qoperator_idname, s.load_post.erase load_post_handler⟩
         else Except.ok ⟨s.classes.erase qoperator_idname, s.load_post⟩)
       else Except.error PyError.runtimeError) := by
  unfold unregister unregister_class
  by_cases hm : qoperator_idname ∈ s.classes
  · rw [if_pos hm, if_pos hm]
  · rw [if_neg hm, if_neg hm]

/-! The claim theorems. -/

/-- C1: notify intercepts exactly the window-close events addressed to the
wrapped window or its container widget: it persists the current geometry, sets
should_close to true, ignores the event and returns False without the
superclass dispatch; every other (event, receiver) pair is delegated to
default handling unchanged. -/
theorem notify_close_interception (app : BlenderApp) (r : Receiver) (ev : Event) :
    (ev.isClose = true → r = Receiver.blenderWidget ∨ r = Receiver.blenderWindow →
      notify app r ev =
        { app := { app with
            settings := store_window_geometry app.widget app.settings,
            should_close := true },
          event := { ev with accepted := false },
          outcome := NotifyOutcome.intercepted }) ∧
    (ev.isClose = false ∨ (r ≠ Receiver.blenderWidget ∧ r ≠ Receiver.blenderWindow) →
      notify app r ev = { app := app, event := ev, outcome := NotifyOutcome.delegated }) := by
  constructor
  · intro hc hr
    unfold notify
    rw [if_pos ⟨hc, hr⟩]
  · intro hother
    unfold notify
    rw [if_neg]
    intro hcond
    rcases hcond with ⟨hc, hr⟩
    rcases hother with hfalse | ⟨hw, hn⟩
    · rw [hfalse] at hc
      exact Bool.false_ne_true hc
    · rcases hr with h1 | h2
      · exact hw h1
      · exact hn h2

/-- Witness for C1: a concrete close event addressed to the container widget
is intercepted, with the geometry persisted and the flag set. -/
theorem notify_close_interception_witness :
    notify ⟨false, ⟨⟨1, 2, 3, 4⟩, false, false⟩, ⟨none, none, none⟩⟩
        Receiver.blenderWidget ⟨true, true⟩ =
      { app := ⟨true, ⟨⟨1, 2, 3, 4⟩, false, false⟩,
          ⟨some ⟨1, 2, 3, 4⟩, some "false", some "false"⟩⟩,
        event := ⟨true, false⟩,
        outcome := NotifyOutcome.intercepted } :=
  (notify_close_interception _ _ _).1 rfl (Or.inl rfl)

/-- C2: geometry restore applies exactly one of three outcomes in priority
order: a persisted full-screen value that reads true shows full-screen; else a
persisted maximized value that reads true shows maximized; else the persisted
geometry rectangle is applied and the window shown, defaulting to
(0, 0, 640, 480) when no geometry is stored. -/
theorem set_window_geometry_priority (s : Settings) :
    (settingIsTrue s.isFullScreen = true →
      set_window_geometry s = WindowAction.showFullScreen) ∧
    (settingIsTrue s.isFullScreen = false → settingIsTrue s.isMaximized = true →
      set_window_geometry s = WindowAction.showMaximized) ∧
    (settingIsTrue s.isFullScreen = false → settingIsTrue s.isMaximized = false →
      set_window_geometry s = WindowAction.showWithGeometry (s.geometry.getD defaultRect)) ∧
    (s.geometry = none → settingIsTrue s.isFullScreen = false →
      settingIsTrue s.isMaximized = false →
      set_window_geometry s = WindowAction.showWithGeometry ⟨0, 0, 640, 480⟩) := by
  refine ⟨fun h1 => ?_, fun h1 h2 => ?_, fun h1 h2 => ?_, fun hg h1 h2 => ?_⟩
  · unfold set_window_geometry
    rw [if_pos h1]
  · unfold set_window_geometry
    have hneg : ¬(settingIsTrue s.isFullScreen = true) := by rw [h1]; simp
    rw [if_neg hneg, if_pos h2]
  · unfold set_window_geometry
    have hneg1 : ¬(settingIsTrue s.isFullScreen = true) := by rw [h1]; simp
    have hneg2 : ¬(settingIsTrue s.isMaximized = true) := by rw [h2]; simp
    rw [if_neg hneg1, if_neg hneg2]
  · unfold set_window_geometry
    have hneg1 : ¬(settingIsTrue s.isFullScreen = true) := by rw [h1]; simp
    have hneg2 : ¬(settingIsTrue s.isMaximized = true) := by rw [h2]; simp
    rw [if_neg hneg1, if_neg hneg2, hg]
    rfl

/-- Witness for C2: a stored full-screen value wins over everything else. -/
theorem set_window_geometry_priority_witness :
    set_window_geometry ⟨some ⟨5, 5, 10, 10⟩, some "true", some "true"⟩ =
      WindowAction.showFullScreen :=
  (set_window_geometry_priority _).1 rfl

/-- C3 counterexample: with the tick-rate variable set to a non-numeric string,
the module-level TICK computation raises ValueError at import instead of
returning the default period; the unset case does give the default 1/30. -/
theorem tick_non_numeric_counterexample :
    TICK (some "abc") = Except.error PyError.valueError ∧
    TICK none = Except.ok ⟨1, 30⟩ ∧
    Except.error PyError.valueError ≠ (Except.ok (⟨1, 30⟩ : PyFloat) : Except PyError PyFloat) :=
  ⟨rfl, rfl, fun h => Except.noConfusion h⟩

/-- C3 amended: the tick callback returns the period 1 divided by the tick rate
for every positive numeric value of the variable and the default 1/30 when the
variable is unset, and it returns the same fixed period on every invocation;
but a non-numeric value raises ValueError at module import instead of falling
back to the default. -/
theorem tick_period_amended :
    (∀ (s : String) (q : PyFloat), pyFloatOfString s = some q → 0 < q.num →
      TICK (some s) = Except.ok (pyRecip q) ∧ (pyRecip q).val = 1 / q.val) ∧
    (TICK none = Except.ok ⟨1, 30⟩ ∧ (⟨1, 30⟩ : PyFloat).val = 1 / 30) ∧
    (∀ s : String, pyFloatOfString s = none →
      TICK (some s) = Except.error PyError.valueError) ∧
    (∀ (t : PyFloat) (a b : BlenderApp), (on_update t a).2 = (on_update t b).2) := by
  refine ⟨?_, ⟨rfl, ?_⟩, ?_, fun t a b => rfl⟩
  · intro s q hq hpos
    refine ⟨?_, pyRecip_val q hpos⟩
    unfold TICK
    have hd : Option.getD (some s) "30" = s := rfl
    rw [hd, hq]
    show (if q.num = 0 then Except.error PyError.zeroDivisionError
          else Except.ok (pyRecip q)) = Except.ok (pyRecip q)
    rw [if_neg (ne_of_gt hpos)]
  · norm_num [PyFloat.val]
  · intro s h
    unfold TICK
    have hd : Option.getD (some s) "30" = s := rfl
    rw [hd, h]

/-- Witness for C3 amended: a tick rate of 60 gives the exact period 1/60. -/
theorem tick_period_amended_witness :
    pyFloatOfString "60" = some ⟨60, 1⟩ ∧ (0 : Int) < 60 ∧
    (TICK (some "60") = Except.ok (pyRecip ⟨60, 1⟩) ∧
      (pyRecip ⟨60, 1⟩).val = 1 / (⟨60, 1⟩ : PyFloat).val) :=
  ⟨by decide, by decide, tick_period_amended.1 "60" ⟨60, 1⟩ (by decide) (by decide)⟩

/-- C4 counterexample: from the empty bpy state, unregister raises instead of
being a no-op, and the second of two register calls raises instead of being
skipped by a membership check. -/
theorem register_unregister_counterexample :
    unregister ⟨[], []⟩ = Except.error PyError.runtimeError ∧
    register ⟨[], []⟩ = Except.ok ⟨[qoperator_idname], [load_post_handler]⟩ ∧
    register ⟨[qoperator_idname], [load_post_handler]⟩ = Except.error PyError.valueError :=
  ⟨rfl, rfl, rfl⟩

/-- C4 amended: only the load_post handler list is membership-guarded.  A
successful register adds the command class once and never duplicates the
handler entry; but a second register raises the duplicate-class ValueError
from the host API (leaving the one registered class and one handler entry of
the first call in place), and unregister when the class is absent raises
RuntimeError instead of being a no-op. -/
theorem register_unregister_amended (s : BpyState) :
    (qoperator_idname ∈ s.classes → register s = Except.error PyError.valueError) ∧
    (qoperator_idname ∉ s.classes → unregister s = Except.error PyError.runtimeError) ∧
    (∀ s2, register s = Except.ok s2 →
      s2.classes.count qoperator_idname = s.classes.count qoperator_idname + 1 ∧
      (load_post_handler ∈ s.load_post → s2.load_post = s.load_post) ∧
      (load_post_handler ∉ s.load_post → s2.load_post = s.load_post ++ [load_post_handler])) ∧
    (∀ s2, unregister s = Except.ok s2 →
      s2.classes = s.classes.erase qoperator_idname ∧
      s2.load_post = s.load_post.erase load_post_handler) := by
  refine ⟨?_, ?_, ?_, ?_⟩
  · intro h
    rw [register_eq s, if_pos h]
  · intro h
    rw [unregister_eq s, if_neg h]
  · intro s2 h
    rw [register_eq s] at h
    by_cases hm : qoperator_idname ∈ s.classes
    · rw [if_pos hm] at h
      exact Except.noConfusion h
    · rw [if_neg hm] at h
      by_cases hl : load_post_handler ∈ s.load_post
      · rw [if_pos hl] at h
        injection h with h2
        subst h2
        refine ⟨?_, fun _ => rfl, fun hl2 => absurd hl hl2⟩
        simp [List.count_append]
      · rw [if_neg hl] at h
        injection h with h2
        subst h2
        refine ⟨?_, fun hl2 => absurd hl2 hl, fun _ => rfl⟩
        simp [List.count_append]
  · intro s2 h
    rw [unregister_eq s] at h
    by_cases hm : qoperator_idname ∈ s.classes
    · rw [if_pos hm] at h
      by_cases hl : load_post_handler ∈ s.load_post
      · rw [if_pos hl] at h
        injection h with h2
        subst h2
        exact ⟨rfl, rfl⟩
      · rw [if_neg hl] at h
        injection h with h2
        subst h2
        exact ⟨rfl, (List.erase_of_not_mem hl).symm⟩
    · rw [if_neg hm] at h
      exact Except.noConfusion h

/-- Witness for C4 amended: registering when the class is already present
raises the duplicate-class error. -/
theorem register_unregister_amended_witness :
    register ⟨[qoperator_idname], []⟩ = Except.error PyError.valueError :=
  (register_unregister_amended _).1 (by decide)

/-- C5: storing the widget state and then restoring reads back exactly the
stored geometry rectangle and the two stored booleans, and the restored window
action reflects exactly the stored state. -/
theorem settings_round_trip (w : WidgetState) (s : Settings) :
    (store_window_geometry w s).geometry = some w.geometry ∧
    settingIsTrue (store_window_geometry w s).isMaximized = w.isMaximized ∧
    settingIsTrue (store_window_geometry w s).isFullScreen = w.isFullScreen ∧
    set_window_geometry (store_window_geometry w s) =
      (if w.isFullScreen then WindowAction.showFullScreen
       else if w.isMaximized then WindowAction.showMaximized
       else WindowAction.showWithGeometry w.geometry) := by
  rcases w with ⟨g, m, f⟩
  cases m <;> cases f <;> exact ⟨rfl, rfl, rfl, rfl⟩

/-- C6 counterexample: with one enumerated process that does not match blender
and no temp file, the Windows routine still returns a QIcon object (a null
icon), and since a QIcon object is truthy the constructor passes it to
setWindowIcon: an application icon IS set, contrary to the claim that none is. -/
theorem windows_icon_no_match_counterexample :
    get_application_icon_windows (fun _ => [0]) [⟨4, "C:/Windows/explorer.exe", true⟩] none =
      (none, ⟨none⟩) ∧
    init_icon_step Platform.windows (fun _ => [0])
        [⟨4, "C:/Windows/explorer.exe", true⟩] none ⟨some [0]⟩ =
      Except.ok (some ⟨none⟩, none) ∧
    some (⟨none⟩ : QIconV) ≠ (none : Option QIconV) :=
  ⟨rfl, rfl, fun h => Option.noConfusion h⟩

/-- C6 amended: when no enumerated process matches blender, the routine
completes without error and extracts no icon data, leaving the temp file
untouched; but it still returns a QIcon constructed from the temp file path
(null when the file is absent, stale bytes otherwise), and the constructor
always sets that icon since the QIcon object is truthy. -/
theorem windows_icon_no_match_behavior (iconOf : String → List Nat)
    (procs : List WinProcess) (tempFile : Option (List Nat)) (macIcon : QIconV)
    (h : ∀ p ∈ procs, strContains "blender" (strLower p.exe) = false) :
    get_application_icon_windows iconOf procs tempFile = (tempFile, ⟨tempFile⟩) ∧
    init_icon_step Platform.windows iconOf procs tempFile macIcon =
      Except.ok (some ⟨tempFile⟩, tempFile) := by
  have hscan := winIconScan_no_match iconOf procs tempFile h
  constructor
  · unfold get_application_icon_windows
    rw [hscan]
  · unfold init_icon_step get_application_icon_windows
    rw [hscan]

/-- Witness for C6 amended: with only a non-matching process and a stale temp
file, the stale bytes are set as the icon. -/
theorem windows_icon_no_match_behavior_witness :
    init_icon_step Platform.windows (fun _ => [7])
        [⟨9, "C:/Windows/notepad.exe", true⟩] (some [1, 2]) ⟨none⟩ =
      Except.ok (some ⟨some [1, 2]⟩, some [1, 2]) :=
  (windows_icon_no_match_behavior _ _ _ _ (by decide)).2

/-- C7: the Linux icon routine always raises NotImplementedError, and no
handler in the construction path catches it: the icon phase of the constructor
propagates exactly that error on Linux. -/
theorem linux_icon_not_implemented :
    get_application_icon_linux = Except.error PyError.notImplementedError ∧
    ∀ (iconOf : String → List Nat) (procs : List WinProcess)
      (tempFile : Option (List Nat)) (macIcon : QIconV),
      init_icon_step Platform.linux iconOf procs tempFile macIcon =
        Except.error PyError.notImplementedError :=
  ⟨rfl, fun _ _ _ _ => rfl⟩

/-- C8: instantiation is lazy and single-shot: an existing instance is returned
unchanged with no new construction and no new timer; from a state with no
instance, the first call constructs the wrapper and registers the on_update
timer exactly once, and a second call returns that instance unchanged. -/
theorem instantiate_application_lazy_single (g : GlobalState) :
    (∀ a, g.qapp = some a → instantiate_application g = (g, a)) ∧
    (g.qapp = none →
      (instantiate_application g).1.qapp = some (instantiate_application g).2 ∧
      (instantiate_application g).1.constructions = g.constructions + 1 ∧
      (instantiate_application g).1.timers = g.timers ++ ["on_update"] ∧
      instantiate_application (instantiate_application g).1 =
        ((instantiate_application g).1, (instantiate_application g).2)) := by
  constructor
  · intro a ha
    unfold instantiate_application
    rw [ha]
  · intro h0
    unfold instantiate_application
    rw [h0]
    exact ⟨rfl, rfl, rfl, rfl⟩

/-- Witness for C8: with an existing instance the state is returned unchanged,
and from an empty state one construction and one timer registration happen. -/
theorem instantiate_application_lazy_single_witness :
    instantiate_application ⟨some 1, ["on_update"], 1⟩ = (⟨some 1, ["on_update"], 1⟩, 1) :=
  (instantiate_application_lazy_single _).1 1 rfl

/-- C9: should_close is monotone: it is false at construction, every operation
either leaves it unchanged or sets it to true (the close interception being
the only setter), and once true it stays true across any operation sequence. -/
theorem should_close_monotone :
    (∀ (isMac : Bool) (w : WidgetState) (s : Settings),
      (BlenderApp.construct isMac w s).should_close = false) ∧
    (∀ (app : BlenderApp) (op : AppOp),
      (applyOp app op).should_close = app.should_close ∨
      (applyOp app op).should_close = true) ∧
    (∀ (app : BlenderApp) (op : AppOp), app.should_close = true →
      (applyOp app op).should_close = true) ∧
    (∀ (app : BlenderApp) (ops : List AppOp), app.should_close = true →
      (runOps app ops).should_close = true) := by
  have hstep : ∀ (app : BlenderApp) (op : AppOp), app.should_close = true →
      (applyOp app op).should_close = true := by
    intro app op h
    cases op with
    | notifyOp r ev =>
        show (notify app r ev).app.should_close = true
        unfold notify
        by_cases hc : ev.isClose = true ∧
            (r = Receiver.blenderWidget ∨ r = Receiver.blenderWindow)
        · rw [if_pos hc]
        · rw [if_neg hc]
          exact h
    | focusChangedOp b => exact h
    | setWindowGeometryOp => exact h
    | storeWindowGeometryOp => exact h
    | tickOp => exact h
  refine ⟨?_, ?_, hstep, ?_⟩
  · intro isMac w s
    cases isMac <;> rfl
  · intro app op
    cases op with
    | notifyOp r ev =>
        by_cases hc : ev.isClose = true ∧
            (r = Receiver.blenderWidget ∨ r = Receiver.blenderWindow)
        · refine Or.inr ?_
          show (notify app r ev).app.should_close = true
          unfold notify
          rw [if_pos hc]
        · refine Or.inl ?_
          show (notify app r ev).app.should_close = app.should_close
          unfold notify
          rw [if_neg hc]
    | focusChangedOp b => exact Or.inl rfl
    | setWindowGeometryOp => exact Or.inl rfl
    | storeWindowGeometryOp => exact Or.inl rfl
    | tickOp => exact Or.inl rfl
  · intro app ops
    induction ops generalizing app with
    | nil => intro h; exact h
    | cons op t ih =>
        intro h
        have hfold : runOps app (op :: t) = runOps (applyOp app op) t := rfl
        rw [hfold]
        exact ih (applyOp app op) (hstep app op h)

/-- Witness for C9: a flag already true survives a tick and an unrelated
event dispatch. -/
theorem should_close_monotone_witness :
    (runOps ⟨true, ⟨⟨0, 0, 640, 480⟩, false, false⟩, ⟨none, none, none⟩⟩
        [AppOp.tickOp, AppOp.notifyOp (Receiver.other 0) ⟨false, true⟩]).should_close = true :=
  should_close_monotone.2.2.2 _ _ rfl

/-- C10: the startup hook invokes the operator exactly when the module file
path contains the substring startup and the disable variable is not set to a
truthy value; in particular a path without startup makes the hook a no-op even
with the variable absent, and with the variable absent the substring test alone
decides. -/
theorem create_global_app_startup_guard (file : String) (disableEnv : Option String) :
    (create_global_app file disableEnv = true → strContains "startup" file = true) ∧
    (strContains "startup" file = false → create_global_app file disableEnv = false) ∧
    (disableEnv = none → create_global_app file disableEnv = strContains "startup" file) ∧
    (envTruthy disableEnv = true → create_global_app file disableEnv = false) := by
  refine ⟨?_, ?_, ?_, ?_⟩
  · intro h
    exact ((Bool.and_eq_true _ _).mp h).1
  · intro ha
    unfold create_global_app
    rw [ha]
    rfl
  · intro hd
    unfold create_global_app
    rw [hd]
    exact Bool.and_true _
  · intro hb
    unfold create_global_app
    rw [hb]
    exact Bool.and_false _

/-- Witness for C10: a module path without the substring startup leaves the
hook inert even with the disable variable absent. -/
theorem create_global_app_startup_guard_witness :
    create_global_app "scripts/addons/bqt.py" none = false :=
  (create_global_app_startup_guard _ _).2.1 (by decide)

end Bqt
